import Mathlib

/-!
Shallow embedding of the VaakShakti speech-evaluation orchestrator.

Source files modelled:
  * `main.py` — `get_task_status` (the Completion Aggregator, lines 238-311)
    and the task-creation endpoint `evaluate_speech_async` (lines 189-236);
  * `tasks/component_tasks.py` — `update_component_task_status_sync`
    (lines 29-48), `_run_component_task` (74-85), the grammar / content /
    pronunciation worker tasks (103-116), `_calculate_rating` (120-131) and
    `create_final_summary_task` (133-199);
  * `database.py` — the `TaskStatus` and `EvaluationComponentType`
    enumerations and the `BackgroundTask` / `EvaluationComponentResult` rows.

Modelling conventions:
  * JSON payloads are kept in parsed form: a component's `result` column is
    `Option Jobj`, a record restricted to exactly the keys this code ever
    reads (`transcript`, `flagged_words`, `grammar_feedback`,
    `content_evaluation`); `json.loads`/`json.dumps` round-trips are the
    identity under this view.  The parent task's `result` column is kept as
    the raw string because the aggregator tests only its Python truthiness.
  * Python's `datetime.now` is an explicit `now : Nat` argument.
  * External analysis collaborators (`get_corrected_grammar`,
    `compare_answers`, `get_speech_feedback`) are opaque: their outcome is
    passed in as `Except String String` (an exception or a feedback string).
  * Floats: `_calculate_rating` works on 3.0/4.0/5.0 only, all exactly
    representable; it is modelled over `ℚ`.  The fallback progress
    computation `int(completed_count / 8 * 90)` is exact in binary floating
    point (the divisor is a power of two), so it equals Nat division
    `completed_count * 90 / 8`.
-/

/-- `TaskStatus` from `database.py` (lines 177-181). -/
inductive TaskStatus where
  | pending
  | processing
  | completed
  | failed
deriving DecidableEq, Repr

/-- `EvaluationComponentType` from `database.py` (lines 217-225). -/
inductive ComponentType where
  | transcription
  | audio_features
  | emotion_text
  | sentiment_text
  | linguistic_text
  | grammar
  | content_comparison
  | pronunciation
deriving DecidableEq, Repr, Fintype

/-- The `.value` string of each `EvaluationComponentType` member. -/
def ComponentType.value : ComponentType → String
  | .transcription => "transcription"
  | .audio_features => "audio_features"
  | .emotion_text => "emotion_text"
  | .sentiment_text => "sentiment_text"
  | .linguistic_text => "linguistic_text"
  | .grammar => "grammar"
  | .content_comparison => "content_comparison"
  | .pronunciation => "pronunciation"

/-- Iteration order of the enumeration, as used by
`component_types = [e for e in EvaluationComponentType]` in `main.py`. -/
def allComponentTypes : List ComponentType :=
  [.transcription, .audio_features, .emotion_text, .sentiment_text,
   .linguistic_text, .grammar, .content_comparison, .pronunciation]

/-- `len(EvaluationComponentType)` as used throughout `get_task_status`. -/
def totalCount : Nat := allComponentTypes.length

/-- A JSON object restricted to the keys the orchestrator reads.  A missing
key is `none`; `flagged_words` entries are (word, confidence) pairs, the
confidence abstracted to `Int` since the orchestrator never inspects it. -/
structure Jobj where
  transcript : Option String := none
  flagged_words : Option (List (String × Int)) := none
  grammar_feedback : Option String := none
  content_evaluation : Option String := none
deriving DecidableEq, Repr

/-- A Python value appearing in a Celery task argument tuple. -/
inductive PyVal where
  | vnone
  | vint (n : Nat)
  | vstr (s : String)
  | vwords (ws : List (String × Int))
deriving DecidableEq, Repr

/-- An enqueued Celery job: registered task name plus positional args,
as produced by `celery_app.send_task(task_name, args=task_args)` and by
`<task>.delay(...)`. -/
structure Job where
  name : String
  args : List PyVal
deriving DecidableEq, Repr

def ofOptStr : Option String → PyVal
  | none => .vnone
  | some s => .vstr s

def ofOptWords : Option (List (String × Int)) → PyVal
  | none => .vnone
  | some ws => .vwords ws

/-- One `EvaluationComponentResult` row (`database.py` lines 227-241);
only the columns read or written by the modelled code are kept. -/
structure ComponentRow where
  id : Nat
  parent_task_id : String
  component_type : ComponentType
  status : TaskStatus
  status_message : Option String
  result : Option Jobj
  error_message : Option String
  updated_at : Nat
  completed_at : Option Nat
deriving DecidableEq, Repr

/-- One `BackgroundTask` row (`database.py` lines 183-205); only the columns
read or written by the modelled code are kept.  `result` is the raw JSON
string column, whose Python truthiness is the wave-2 dispatch marker. -/
structure ParentRow where
  task_id : String
  status : TaskStatus
  progress : Nat
  status_message : Option String
  result : Option String
  error_message : Option String
  question : Option String
  ideal_answer : Option String
  model : Option String
  completed_at : Option Nat
deriving DecidableEq, Repr

/-- Python truthiness of an optional string column (`None` and `""` are
falsy; every other string is truthy). -/
def pyTruthy : Option String → Bool
  | none => false
  | some s => s != ""

/-- `json.dumps({"text_tasks_dispatched": True})` — the value written to the
parent's `result` column when wave 2 is dispatched (`main.py` line 285). -/
def dispatchedMarker : String := "\x7b\"text_tasks_dispatched\": true\x7d"

/-- `update_component_task_status_sync` (`tasks/component_tasks.py` lines
29-48).  The row argument is the `session.get` lookup: `none` means the
component id does not exist, and the call is a no-op.  `now` stands for the
two `datetime.now(timezone.utc)` calls.  Python's `if status_message:` and
`if error:` skip `None` and `""`; `if result:` skips `None` (the modelled
payloads are never empty dicts). -/
def update_component_task_status_sync (row : Option ComponentRow)
    (status : TaskStatus) (status_message : Option String)
    (result : Option Jobj) (error : Option String) (now : Nat) :
    Option ComponentRow :=
  match row with
  | none => none
  | some task_entry =>
    let task_entry := { task_entry with status := status }
    let task_entry :=
      match status_message with
      | some m => if m != "" then { task_entry with status_message := some m } else task_entry
      | none => task_entry
    let task_entry := { task_entry with updated_at := now }
    let task_entry :=
      match result with
      | some r => { task_entry with result := some r }
      | none => task_entry
    let task_entry :=
      match error with
      | some e => if e != "" then { task_entry with error_message := some e } else task_entry
      | none => task_entry
    let task_entry :=
      if status = TaskStatus.completed ∨ status = TaskStatus.failed then
        { task_entry with completed_at := some now }
      else task_entry
    some task_entry

/-- `_run_component_task` (`tasks/component_tasks.py` lines 74-85): mark the
row PROCESSING at time `t1`, run the analysis thunk, report COMPLETED with
the result or FAILED with the error message at time `t2`. -/
def run_component_task (row : Option ComponentRow) (status_message : String)
    (analysis : Except String Jobj) (t1 t2 : Nat) : Option ComponentRow :=
  let row1 := update_component_task_status_sync row TaskStatus.processing
    (some (status_message ++ "...")) none none t1
  match analysis with
  | .ok result =>
      update_component_task_status_sync row1 TaskStatus.completed
        (some "Analysis complete.") (some result) none t2
  | .error e =>
      let error_msg := status_message ++ " error: " ++ e
      update_component_task_status_sync row1 TaskStatus.failed
        (some error_msg) none (some error_msg) t2

/-- `evaluate_grammar_task` (`tasks/component_tasks.py` lines 103-106):
`get_corrected_grammar` is called BEFORE `_run_component_task`, outside any
try/except — if it raises, the task dies with no status write at all.  On
success the thunk handed to `_run_component_task` cannot raise. -/
def evaluate_grammar_task (row : Option ComponentRow)
    (analysis : Except String String) (t1 t2 : Nat) : Option ComponentRow :=
  match analysis with
  | .error _ => row
  | .ok result =>
      run_component_task row "Grammar evaluation"
        (.ok { grammar_feedback := some result }) t1 t2

/-- `evaluate_content_task` (`tasks/component_tasks.py` lines 108-111);
same shape: `compare_answers` runs before any status write. -/
def evaluate_content_task (row : Option ComponentRow)
    (analysis : Except String String) (t1 t2 : Nat) : Option ComponentRow :=
  match analysis with
  | .error _ => row
  | .ok result =>
      run_component_task row "Content evaluation"
        (.ok { content_evaluation := some result }) t1 t2

/-- `evaluate_pronunciation_task` (`tasks/component_tasks.py` lines
113-116); same shape: `get_speech_feedback` runs before any status write.
Its payload key `pronunciation_feedback` is never read back by the modelled
aggregator or rating code, so the payload is the empty object here. -/
def evaluate_pronunciation_task (row : Option ComponentRow)
    (analysis : Except String String) (t1 t2 : Nat) : Option ComponentRow :=
  match analysis with
  | .error _ => row
  | .ok _ =>
      run_component_task row "Pronunciation evaluation" (.ok {}) t1 t2

/-- The Python dict comprehension
`component_statuses = {c.component_type: c.status for c in components}`
(`main.py` line 248): later rows with the same type overwrite earlier ones,
keys keep first-insertion order. -/
def insertStatus (d : List (ComponentType × TaskStatus))
    (k : ComponentType) (v : TaskStatus) : List (ComponentType × TaskStatus) :=
  if d.any (fun p => p.1 == k) then
    d.map (fun p => if p.1 == k then (k, v) else p)
  else d ++ [(k, v)]

def buildStatuses (components : List ComponentRow) :
    List (ComponentType × TaskStatus) :=
  components.foldl (fun d c => insertStatus d c.component_type c.status) []

/-- `sum(1 for status in component_statuses.values() if status == s)`. -/
def countStatus (d : List (ComponentType × TaskStatus)) (s : TaskStatus) : Nat :=
  d.countP (fun p => p.2 == s)

/-- `[c for c in components if c.component_type not in [TRANSCRIPTION, AUDIO_FEATURES]]`
(`main.py` line 267). -/
def textComponents (components : List ComponentRow) : List ComponentRow :=
  components.filter (fun c =>
    !(c.component_type == ComponentType.transcription)
    && !(c.component_type == ComponentType.audio_features))

/-- One wave-2 dispatch (`main.py` lines 269-283): task name
`f'tasks.component_tasks.{component_type.value}_task'` with the per-kind
argument tuple built from the transcript, flagged words and parent metadata. -/
def wave2Job (c : ComponentRow) (transcript : Option String)
    (flagged_words : Option (List (String × Int))) (parent : ParentRow) : Job :=
  let task_name := "tasks.component_tasks." ++ c.component_type.value ++ "_task"
  let args := [PyVal.vint c.id, ofOptStr transcript]
  let task_args :=
    if c.component_type = ComponentType.grammar then
      args ++ [ofOptStr parent.question, ofOptStr parent.model]
    else if c.component_type = ComponentType.content_comparison then
      args ++ [ofOptStr parent.ideal_answer, ofOptStr parent.question, ofOptStr parent.model]
    else if c.component_type = ComponentType.pronunciation then
      args ++ [ofOptWords flagged_words, ofOptStr parent.question, ofOptStr parent.model]
    else args
  { name := task_name, args := task_args }

/-- Registered name of the final-summary Celery task. -/
def summaryTaskName : String := "tasks.component_tasks.create_final_summary_task"

/-- The Completion Aggregator: the body of `get_task_status` that advances
the parent state machine (`main.py` lines 247-300).  Returns the updated
parent row and the list of jobs handed to the work-dispatch mechanism by
this evaluation.  When the parent is not PROCESSING the whole block is
skipped and the snapshot is returned unchanged. -/
def aggregate (parent_task : ParentRow) (components : List ComponentRow) :
    ParentRow × List Job :=
  if parent_task.status = TaskStatus.processing then
    let component_statuses := buildStatuses components
    let completed_count := countStatus component_statuses TaskStatus.completed
    let failed_count := countStatus component_statuses TaskStatus.failed
    if 0 < failed_count then
      ({ parent_task with
          status := TaskStatus.failed,
          error_message := some "One or more evaluation components failed." }, [])
    else if component_statuses.lookup ComponentType.transcription = some TaskStatus.completed
        ∧ component_statuses.lookup ComponentType.audio_features = some TaskStatus.completed
        ∧ pyTruthy parent_task.result = false then
      let transcription_comp := components.find?
        (fun c => c.component_type == ComponentType.transcription)
      match transcription_comp with
      | some tc =>
        match tc.result with
        | some transcript_data =>
          let transcript := transcript_data.transcript
          let flagged_words := transcript_data.flagged_words
          let jobs := (textComponents components).map
            (fun comp_entry => wave2Job comp_entry transcript flagged_words parent_task)
          ({ parent_task with
              result := some dispatchedMarker,
              status_message := some "Text analysis tasks dispatched." }, jobs)
        | none =>
          ({ parent_task with
              status := TaskStatus.failed,
              error_message := some "Transcription result not found." }, [])
      | none =>
        ({ parent_task with
            status := TaskStatus.failed,
            error_message := some "Transcription result not found." }, [])
    else if completed_count = totalCount then
      ({ parent_task with
          status_message := some "All components complete. Aggregating final results...",
          progress := 95 },
       [{ name := summaryTaskName, args := [PyVal.vstr parent_task.task_id] }])
    else
      ({ parent_task with
          progress := completed_count * 90 / totalCount,
          status_message := some (toString completed_count ++ "/"
            ++ toString totalCount ++ " components processed.") }, [])
  else (parent_task, [])

/-- `round(score, 1)` on the rationals: Python rounds floats half-to-even,
but every score this code produces is an integer (3, 4 or 5), where the two
rounding modes agree, so Mathlib's `round` is used. -/
def pyRound1 (q : ℚ) : ℚ := ((round (q * 10) : ℤ) : ℚ) / 10

/-- `_calculate_rating` (`tasks/component_tasks.py` lines 120-131).
`next((c for c in components if c.component_type == T and c.result), None)`
is `List.find?` with the same predicate; `json.loads(...).get(key, "")` is
the corresponding `Jobj` field with default `""`.  Nothing in the modelled
payloads can raise, so the `except` arm (which would return the partial
score) is dead. -/
def calculate_rating (components : List ComponentRow) : ℚ :=
  let score : ℚ := 3
  let grammar_comp := components.find?
    (fun c => c.component_type == ComponentType.grammar && c.result.isSome)
  let score :=
    match grammar_comp with
    | some c =>
        if ((c.result.getD {}).grammar_feedback.getD "").length < 300 then score + 1 else score
    | none => score
  let content_comp := components.find?
    (fun c => c.component_type == ComponentType.content_comparison && c.result.isSome)
  let score :=
    match content_comp with
    | some c =>
        if ((c.result.getD {}).content_evaluation.getD "").length < 500 then score + 1 else score
    | none => score
  max 1 (min 5 (pyRound1 score))

/-- The grammar feedback text the rating code would read from a component
list (the first grammar component carrying a result payload). -/
def grammarFeedbackOf (components : List ComponentRow) : Option String :=
  (components.find?
    (fun c => c.component_type == ComponentType.grammar && c.result.isSome)).map
    (fun c => (c.result.getD {}).grammar_feedback.getD "")

/-- The content-comparison feedback text the rating code would read. -/
def contentFeedbackOf (components : List ComponentRow) : Option String :=
  (components.find?
    (fun c => c.component_type == ComponentType.content_comparison && c.result.isSome)).map
    (fun c => (c.result.getD {}).content_evaluation.getD "")

/-- Modelled from the spec (§4.6), for comparison with `calculate_rating`:
base 3.0, +1.0 if the grammar feedback is under 300 characters, +1.0 if the
content feedback is under 500 characters, clamped to [1.0, 5.0], rounded to
one decimal place. -/
def ratingSpec (grammarFeedback contentFeedback : Option String) : ℚ :=
  let adjGrammar : ℚ :=
    match grammarFeedback with
    | some s => if s.length < 300 then 1 else 0
    | none => 0
  let adjContent : ℚ :=
    match contentFeedback with
    | some s => if s.length < 500 then 1 else 0
    | none => 0
  max 1 (min 5 (pyRound1 (3 + adjGrammar + adjContent)))

/-- System state: the parent row, its component rows, the append-only log of
jobs handed to the work-dispatch mechanism, and the persisted outcome
records (`PracticeSession` rows), abstracted to the list of their stored
ratings — their remaining content is never read back by the modelled code. -/
structure SysState where
  parent : ParentRow
  components : List ComponentRow
  queue : List Job
  sessions : List ℚ
deriving DecidableEq, Repr

/-- The operations that touch the two tables after task creation:
a `getStatus` call (which runs the Completion Aggregator), a worker's
status report, and an execution of `create_final_summary_task`
(`persistOk = false` means the try-block raised — e.g. outcome persistence
failed — before the outcome record was stored). -/
inductive Op where
  | query
  | report (component_id : Nat) (status : TaskStatus)
      (status_message : Option String) (result : Option Jobj)
      (error : Option String) (now : Nat)
  | summarize (persistOk : Bool) (now : Nat)
deriving DecidableEq, Repr

def Op.isSummarize : Op → Bool
  | .summarize _ _ => true
  | _ => false

/-- `create_final_summary_task` (`tasks/component_tasks.py` lines 133-199)
acting on the state.  Success path: persist one outcome record carrying
`_calculate_rating` of the COMPLETED components, then set the parent
COMPLETED / progress 100 / completed_at / result reference — without ever
checking the parent's current status.  Failure path (the `except` arm):
set the parent FAILED with the generic message, nothing persisted. -/
def summarizeStep (s : SysState) (persistOk : Bool) (now : Nat) : SysState :=
  if persistOk then
    let completed_components := s.components.filter
      (fun c => c.status == TaskStatus.completed)
    let session_id := s.sessions.length + 1
    { s with
        sessions := s.sessions ++ [calculate_rating completed_components],
        parent := { s.parent with
          status := TaskStatus.completed,
          status_message := some ("Evaluation complete. View results in session "
            ++ toString session_id ++ "."),
          progress := 100,
          completed_at := some now,
          result := some ("\x7b\"practice_session_id\": " ++ toString session_id ++ "\x7d") } }
  else
    { s with parent := { s.parent with
        status := TaskStatus.failed,
        error_message := some "Failed to create final summary." } }

/-- One step of the system. `report` is `update_component_task_status_sync`
applied to the row with the given primary key (ids are unique, so at most
one row changes); `query` is one Aggregator evaluation whose dispatched
jobs are appended to the log. -/
def step (s : SysState) (op : Op) : SysState :=
  match op with
  | .query =>
      let r := aggregate s.parent s.components
      { s with parent := r.1, queue := s.queue ++ r.2 }
  | .report cid st msg res err now =>
      { s with components := s.components.map (fun c =>
          if c.id = cid then
            (update_component_task_status_sync (some c) st msg res err now).getD c
          else c) }
  | .summarize ok now => summarizeStep s ok now

def run (s : SysState) (ops : List Op) : SysState := ops.foldl step s

/-- Registered names of the two wave-1 Celery tasks. -/
def transcribeTaskName : String := "tasks.component_tasks.transcribe_audio_task"

def audioFeaturesTaskName : String := "tasks.component_tasks.audio_features_task"

/-- A freshly created component row (`EvaluationComponentResultCreate`
defaults from `database.py`, rows created in `main.py` lines 214-217). -/
def mkComponent (i : Nat) (t : ComponentType) (tid : String) : ComponentRow :=
  { id := i, parent_task_id := tid, component_type := t,
    status := TaskStatus.pending,
    status_message := some "Component task submitted...",
    result := none, error_message := none, updated_at := 0, completed_at := none }

/-- The state right after `evaluate_speech_async` (`main.py` lines 200-233)
returns: parent PROCESSING with the initial message, one PENDING component
per enumeration member (ids 1..8 in enumeration order), and the two wave-1
jobs already enqueued. -/
def mkInitState (tid : String) (question ideal_answer model : Option String)
    (audioPath : String) : SysState :=
  { parent :=
      { task_id := tid, status := TaskStatus.processing, progress := 0,
        status_message := some "Initial audio analysis tasks dispatched.",
        result := none, error_message := none,
        question := question, ideal_answer := ideal_answer, model := model,
        completed_at := none },
    components :=
      [mkComponent 1 .transcription tid, mkComponent 2 .audio_features tid,
       mkComponent 3 .emotion_text tid, mkComponent 4 .sentiment_text tid,
       mkComponent 5 .linguistic_text tid, mkComponent 6 .grammar tid,
       mkComponent 7 .content_comparison tid, mkComponent 8 .pronunciation tid],
    queue :=
      [{ name := transcribeTaskName,
         args := [PyVal.vint 1, PyVal.vstr audioPath, PyVal.vstr tid,
                  ofOptStr question, ofOptStr ideal_answer, ofOptStr model] },
       { name := audioFeaturesTaskName,
         args := [PyVal.vint 2, PyVal.vstr audioPath] }],
    sessions := [] }

/-- Two `getStatus` calls racing on the same parent: each reads the same
committed snapshot (both reads happen before either write commits), each
computes its dispatch decision, both sets of enqueues take effect, and the
parent-row writes land last-writer-wins.  This is the interleaving described
in §5 of the specification. -/
def concurrent_get_status (s : SysState) : SysState :=
  let r1 := aggregate s.parent s.components
  let r2 := aggregate s.parent s.components
  { s with parent := r2.1, queue := s.queue ++ r1.2 ++ r2.2 }

/-- A component row that has reported COMPLETED with the given payload. -/
def doneComponent (i : Nat) (t : ComponentType) (tid : String) (payload : Jobj) :
    ComponentRow :=
  { id := i, parent_task_id := tid, component_type := t,
    status := TaskStatus.completed, status_message := some "Analysis complete.",
    result := some payload, error_message := none, updated_at := 1,
    completed_at := some 1 }

/-- A component row that has reported FAILED. -/
def failedComponent (i : Nat) (t : ComponentType) (tid : String) : ComponentRow :=
  { id := i, parent_task_id := tid, component_type := t,
    status := TaskStatus.failed, status_message := some "error",
    result := none, error_message := some "error", updated_at := 1,
    completed_at := some 1 }

/-- Transcription result payload used in the concrete scenarios. -/
def tPayload : Jobj :=
  { transcript := some "the quick brown fox", flagged_words := some [] }

/-- Snapshot right after both wave-1 components completed and before any
further `getStatus` call: dispatch marker still unset. -/
def stateC1 : SysState :=
  { parent :=
      { task_id := "t1", status := TaskStatus.processing, progress := 0,
        status_message := some "Initial audio analysis tasks dispatched.",
        result := none, error_message := none, question := some "q",
        ideal_answer := some "a", model := some "m", completed_at := none },
    components :=
      [doneComponent 1 .transcription "t1" tPayload,
       doneComponent 2 .audio_features "t1" {},
       mkComponent 3 .emotion_text "t1", mkComponent 4 .sentiment_text "t1",
       mkComponent 5 .linguistic_text "t1", mkComponent 6 .grammar "t1",
       mkComponent 7 .content_comparison "t1", mkComponent 8 .pronunciation "t1"],
    queue := [], sessions := [] }

/-- Snapshot with wave 2 dispatched (marker set) and partial progress. -/
def stateC7 : SysState :=
  { stateC1 with parent := { stateC1.parent with result := some dispatchedMarker } }

/-- Snapshot with all eight components COMPLETED, wave 2 dispatched, parent
still PROCESSING, final summarizer not yet run. -/
def stateC3 : SysState :=
  { parent :=
      { task_id := "t3", status := TaskStatus.processing, progress := 67,
        status_message := some "Text analysis tasks dispatched.",
        result := some dispatchedMarker, error_message := none,
        question := some "q", ideal_answer := some "a", model := some "m",
        completed_at := none },
    components :=
      [doneComponent 1 .transcription "t3" tPayload,
       doneComponent 2 .audio_features "t3" {},
       doneComponent 3 .emotion_text "t3" {}, doneComponent 4 .sentiment_text "t3" {},
       doneComponent 5 .linguistic_text "t3" {}, doneComponent 6 .grammar "t3" {},
       doneComponent 7 .content_comparison "t3" {}, doneComponent 8 .pronunciation "t3" {}],
    queue := [], sessions := [] }

/-- Component set with wave 1 complete, the grammar component FAILED, marker
unset: both the failure branch and the wave-2-dispatch branch are eligible. -/
def compsC2 : List ComponentRow :=
  [doneComponent 1 .transcription "t1" tPayload,
   doneComponent 2 .audio_features "t1" {},
   mkComponent 3 .emotion_text "t1", mkComponent 4 .sentiment_text "t1",
   mkComponent 5 .linguistic_text "t1", failedComponent 6 .grammar "t1",
   mkComponent 7 .content_comparison "t1", mkComponent 8 .pronunciation "t1"]

/-- Component set where both wave-1 kinds are COMPLETED but the transcription
row carries no result payload. -/
def compsC8m : List ComponentRow :=
  [{ doneComponent 1 .transcription "t1" {} with result := none },
   doneComponent 2 .audio_features "t1" {},
   mkComponent 3 .emotion_text "t1", mkComponent 4 .sentiment_text "t1",
   mkComponent 5 .linguistic_text "t1", mkComponent 6 .grammar "t1",
   mkComponent 7 .content_comparison "t1", mkComponent 8 .pronunciation "t1"]

/-- A terminal (COMPLETED) row, used to probe regression behavior. -/
def rowC4 : ComponentRow :=
  { id := 6, parent_task_id := "t1", component_type := .grammar,
    status := TaskStatus.completed, status_message := some "Analysis complete.",
    result := some { grammar_feedback := some "ok" }, error_message := none,
    updated_at := 5, completed_at := some 5 }

/-- A 250-character grammar feedback string. -/
def gFeedback250 : String := String.mk (List.replicate 250 'a')

/-- A 600-character content feedback string. -/
def cFeedback600 : String := String.mk (List.replicate 600 'b')

/-- Components realizing the spec's scoring test vector: grammar feedback of
250 characters, content feedback of 600 characters. -/
def ratingComps : List ComponentRow :=
  [doneComponent 6 .grammar "t1" { grammar_feedback := some gFeedback250 },
   doneComponent 7 .content_comparison "t1" { content_evaluation := some cFeedback600 }]

/-- Components where a pending grammar row coexists with a FAILED row of a
different kind. -/
def compsC10 : List ComponentRow :=
  [doneComponent 1 .transcription "t1" tPayload,
   failedComponent 2 .audio_features "t1",
   mkComponent 6 .grammar "t1"]

/-- The transcription component's result payload as the wave-2 branch reads
it: the first transcription row's result, `none` when the row is missing or
carries none. -/
def transcriptionResult (components : List ComponentRow) : Option Jobj :=
  (components.find? (fun c => c.component_type == ComponentType.transcription)).bind
    (fun c => c.result)

/-- A state whose parent has already FAILED. -/
def stateC9fail : SysState :=
  { stateC1 with parent := { stateC1.parent with
      status := TaskStatus.failed,
      error_message := some "One or more evaluation components failed." } }

/-- Fresh pipeline state for the C9 run. -/
def initC9 : SysState := mkInitState "t9" (some "q") (some "a") (some "m") "a.wav"

/-- Worker reports completing all eight components (transcription first,
carrying the transcript payload). -/
def opsC9complete : List Op :=
  [Op.report 1 TaskStatus.completed (some "Transcription complete.") (some tPayload) none 1,
   Op.report 2 TaskStatus.completed (some "Analysis complete.") (some {}) none 1,
   Op.report 3 TaskStatus.completed (some "Analysis complete.") (some {}) none 1,
   Op.report 4 TaskStatus.completed (some "Analysis complete.") (some {}) none 1,
   Op.report 5 TaskStatus.completed (some "Analysis complete.") (some {}) none 1,
   Op.report 6 TaskStatus.completed (some "Analysis complete.") (some {}) none 1,
   Op.report 7 TaskStatus.completed (some "Analysis complete.") (some {}) none 1,
   Op.report 8 TaskStatus.completed (some "Analysis complete.") (some {}) none 1]

/-- After all components complete, two `getStatus` calls run (the first
dispatches wave 2 and sets the marker, the second enqueues the final
summary).  An at-least-once redelivery then re-runs the transcription worker,
which regresses the component to PROCESSING and this time FAILS; the next
`getStatus` marks the parent FAILED — with the summary job still queued. -/
def opsC9fail : List Op :=
  opsC9complete ++
  [Op.query, Op.query,
   Op.report 1 TaskStatus.processing (some "Transcription in progress...") none none 4,
   Op.report 1 TaskStatus.failed (some "Transcription error: x") none (some "Transcription error: x") 5,
   Op.query]

/-- C1: two `getStatus` calls racing immediately after both wave-1
components complete both read the unset dispatch marker and both dispatch
wave 2: twelve wave-2 enqueues instead of six, with each individual job
(here the grammar job) enqueued twice.  This refutes the no-double-dispatch
property on the code as written: the marker read and write are not one
atomic conditional update. -/
theorem claim_C1_wave2_double_enqueue :
    (concurrent_get_status stateC1).queue.length = 12
    ∧ (concurrent_get_status stateC1).queue.count
        (wave2Job (mkComponent 6 .grammar "t1") (some "the quick brown fox")
          (some []) stateC1.parent) = 2 := by
  decide

/-- C4 fails on the code: `update_component_task_status_sync` overwrites
`status` unconditionally, so reporting PROCESSING on a COMPLETED row (whose
`completed_at` was 5) regresses it to PROCESSING; and a repeated COMPLETED
report rewrites `completed_at` with the new time 9, not the first terminal
time 5. -/
theorem claim_C4_counterexample :
    (update_component_task_status_sync (some rowC4) TaskStatus.processing
        none none none 9).map ComponentRow.status = some TaskStatus.processing
    ∧ (update_component_task_status_sync (some rowC4) TaskStatus.completed
        none none none 9).map ComponentRow.completed_at = some (some 9)
    ∧ rowC4.status = TaskStatus.completed ∧ rowC4.completed_at = some 5 := by
  decide

/-- C4 amended: the updater never guards on the current status — it always
writes the reported status (so terminal rows can be regressed), and it
writes `completed_at := now` on every terminal report (so later terminal
reports move it), leaving it untouched only on non-terminal reports. -/
theorem claim_C4_amended (r : ComponentRow) (st : TaskStatus)
    (msg : Option String) (res : Option Jobj) (err : Option String) (now : Nat) :
    (update_component_task_status_sync (some r) st msg res err now).map
        ComponentRow.status = some st
    ∧ ((st = TaskStatus.completed ∨ st = TaskStatus.failed) →
        (update_component_task_status_sync (some r) st msg res err now).map
          ComponentRow.completed_at = some (some now))
    ∧ ((st = TaskStatus.pending ∨ st = TaskStatus.processing) →
        (update_component_task_status_sync (some r) st msg res err now).map
          ComponentRow.completed_at = some r.completed_at) := by
  cases msg <;> cases res <;> cases err <;> cases st <;>
    simp [update_component_task_status_sync] <;> split_ifs <;> simp

/-- C4 witness: the amended statement evaluated on a concrete row, for a
terminal and a non-terminal report. -/
theorem claim_C4_witness :
    (update_component_task_status_sync (some rowC4) TaskStatus.failed
        (some "e") none (some "e") 9).map ComponentRow.completed_at = some (some 9)
    ∧ (update_component_task_status_sync (some rowC4) TaskStatus.processing
        (some "w") none none 9).map ComponentRow.completed_at = some (some 5) :=
  ⟨(claim_C4_amended rowC4 TaskStatus.failed (some "e") none (some "e") 9).2.1
      (Or.inr rfl),
   (claim_C4_amended rowC4 TaskStatus.processing (some "w") none none 9).2.2
      (Or.inr rfl)⟩

/-- C5 fails on the code: a second identical COMPLETED report (at time 2,
after one at time 1) yields a different row — `updated_at` and
`completed_at` are rewritten with the later time. -/
theorem claim_C5_counterexample :
    update_component_task_status_sync
        (update_component_task_status_sync (some (mkComponent 6 .grammar "t1"))
          TaskStatus.completed (some "done") none none 1)
        TaskStatus.completed (some "done") none none 2
    ≠ update_component_task_status_sync (some (mkComponent 6 .grammar "t1"))
        TaskStatus.completed (some "done") none none 1 := by
  decide

/-- C5 amended: repeating the same terminal report is idempotent on
`status`, `status_message`, `result` and `error_message`, but `updated_at`
and `completed_at` take the second call's time — the final row state agrees
with a single call only up to those two timestamps. -/
theorem claim_C5_amended (r : ComponentRow) (st : TaskStatus)
    (msg : Option String) (res : Option Jobj) (err : Option String)
    (t1 t2 : Nat) (hterm : st = TaskStatus.completed ∨ st = TaskStatus.failed) :
    (update_component_task_status_sync
        (update_component_task_status_sync (some r) st msg res err t1)
        st msg res err t2).map ComponentRow.status
      = (update_component_task_status_sync (some r) st msg res err t1).map
          ComponentRow.status
    ∧ (update_component_task_status_sync
        (update_component_task_status_sync (some r) st msg res err t1)
        st msg res err t2).map ComponentRow.status_message
      = (update_component_task_status_sync (some r) st msg res err t1).map
          ComponentRow.status_message
    ∧ (update_component_task_status_sync
        (update_component_task_status_sync (some r) st msg res err t1)
        st msg res err t2).map ComponentRow.result
      = (update_component_task_status_sync (some r) st msg res err t1).map
          ComponentRow.result
    ∧ (update_component_task_status_sync
        (update_component_task_status_sync (some r) st msg res err t1)
        st msg res err t2).map ComponentRow.error_message
      = (update_component_task_status_sync (some r) st msg res err t1).map
          ComponentRow.error_message
    ∧ (update_component_task_status_sync
        (update_component_task_status_sync (some r) st msg res err t1)
        st msg res err t2).map ComponentRow.updated_at = some t2
    ∧ (update_component_task_status_sync
        (update_component_task_status_sync (some r) st msg res err t1)
        st msg res err t2).map ComponentRow.completed_at = some (some t2) := by
  rcases hterm with h | h <;> subst h <;>
    cases msg <;> cases res <;> cases err <;>
    simp [update_component_task_status_sync] <;> split_ifs <;> simp

/-- C5 witness: the amended statement evaluated on a concrete double
COMPLETED report. -/
theorem claim_C5_witness :
    (update_component_task_status_sync
        (update_component_task_status_sync (some (mkComponent 6 .grammar "t1"))
          TaskStatus.completed (some "done") none none 1)
        TaskStatus.completed (some "done") none none 2).map ComponentRow.status
      = (update_component_task_status_sync (some (mkComponent 6 .grammar "t1"))
          TaskStatus.completed (some "done") none none 1).map ComponentRow.status
    ∧ (update_component_task_status_sync
        (update_component_task_status_sync (some (mkComponent 6 .grammar "t1"))
          TaskStatus.completed (some "done") none none 1)
        TaskStatus.completed (some "done") none none 2).map ComponentRow.completed_at
      = some (some 2) :=
  ⟨(claim_C5_amended (mkComponent 6 .grammar "t1") TaskStatus.completed
      (some "done") none none 1 2 (Or.inl rfl)).1,
   (claim_C5_amended (mkComponent 6 .grammar "t1") TaskStatus.completed
      (some "done") none none 1 2 (Or.inl rfl)).2.2.2.2.2⟩

/-- C2: failure detection takes priority.  Whenever the parent is
PROCESSING and any component reads FAILED — even in a state that is also
eligible for the wave-2 dispatch branch (both wave-1 kinds COMPLETED,
marker unset) — the Aggregator sets the parent FAILED with the fixed error
message and dispatches nothing. -/
theorem claim_C2_failure_priority (p : ParentRow) (comps : List ComponentRow)
    (h1 : p.status = TaskStatus.processing)
    (h2 : 0 < countStatus (buildStatuses comps) TaskStatus.failed)
    (h3 : (buildStatuses comps).lookup ComponentType.transcription
            = some TaskStatus.completed)
    (h4 : (buildStatuses comps).lookup ComponentType.audio_features
            = some TaskStatus.completed)
    (h5 : pyTruthy p.result = false) :
    aggregate p comps =
      ({ p with
          status := TaskStatus.failed,
          error_message := some "One or more evaluation components failed." },
       []) := by
  simp [aggregate, h1, h2]

/-- C2 witness: the concrete component set `compsC2` has a FAILED grammar
component together with wave-1-complete-and-undispatched; the Aggregator
chooses the FAILED branch. -/
theorem claim_C2_witness :
    aggregate stateC1.parent compsC2 =
      ({ stateC1.parent with
          status := TaskStatus.failed,
          error_message := some "One or more evaluation components failed." },
       []) :=
  claim_C2_failure_priority stateC1.parent compsC2 rfl (by decide) (by decide)
    (by decide) (by decide)

/-- C3 fails on the code: from a state where all eight components are
COMPLETED and the parent remains PROCESSING, each of two consecutive
`getStatus` calls enqueues the final-summary job — two enqueues in one
sequence, not at most one, because nothing marks the summary as already
enqueued and the parent stays PROCESSING until the summarizer itself runs. -/
theorem claim_C3_counterexample :
    (run stateC3 [Op.query]).parent.status = TaskStatus.processing
    ∧ (run stateC3 [Op.query, Op.query]).parent.status = TaskStatus.processing
    ∧ (run stateC3 [Op.query, Op.query]).queue.countP
        (fun j => j.name == summaryTaskName) = 2 := by
  decide

/-- C3 amended: the enqueue is exactly once per `getStatus` call, not per
parent task — every evaluation that observes the parent PROCESSING with no
failure, the wave-2 marker set, and all components COMPLETED appends exactly
one final-summary job and leaves the parent PROCESSING, so a sequence of n
such calls enqueues n summary jobs. -/
theorem claim_C3_amended (s : SysState)
    (h1 : s.parent.status = TaskStatus.processing)
    (h2 : countStatus (buildStatuses s.components) TaskStatus.failed = 0)
    (h3 : pyTruthy s.parent.result = true)
    (h4 : countStatus (buildStatuses s.components) TaskStatus.completed = totalCount) :
    (step s Op.query).queue =
      s.queue ++ [{ name := summaryTaskName, args := [PyVal.vstr s.parent.task_id] }]
    ∧ (step s Op.query).parent.status = TaskStatus.processing := by
  simp [step, aggregate, h1, h2, h3, h4]

/-- C3 witness: the amended statement evaluated on `stateC3`. -/
theorem claim_C3_witness :
    (step stateC3 Op.query).queue =
      stateC3.queue ++ [{ name := summaryTaskName, args := [PyVal.vstr stateC3.parent.task_id] }]
    ∧ (step stateC3 Op.query).parent.status = TaskStatus.processing :=
  claim_C3_amended stateC3 rfl (by decide) (by decide) (by decide)

/-- C8: when the Aggregator sees both wave-1 kinds COMPLETED and the wave-2
marker unset (and no FAILED component, which would take priority), it reads
the transcription component's payload: if present, it dispatches one wave-2
job per remaining component, each built from the payload's transcript and
flagged words, and marks dispatch in the parent's result column; if absent,
it sets the parent FAILED with the explicit "Transcription result not
found." message and dispatches nothing. -/
theorem claim_C8_wave2_extraction (p : ParentRow) (comps : List ComponentRow)
    (h1 : p.status = TaskStatus.processing)
    (h2 : countStatus (buildStatuses comps) TaskStatus.failed = 0)
    (h3 : (buildStatuses comps).lookup ComponentType.transcription
            = some TaskStatus.completed)
    (h4 : (buildStatuses comps).lookup ComponentType.audio_features
            = some TaskStatus.completed)
    (h5 : pyTruthy p.result = false) :
    (∀ td : Jobj, transcriptionResult comps = some td →
      aggregate p comps =
        ({ p with
            result := some dispatchedMarker,
            status_message := some "Text analysis tasks dispatched." },
         (textComponents comps).map
           (fun c => wave2Job c td.transcript td.flagged_words p)))
    ∧ (transcriptionResult comps = none →
        aggregate p comps =
          ({ p with
              status := TaskStatus.failed,
              error_message := some "Transcription result not found." },
           [])) := by
  constructor
  · intro td htd
    unfold transcriptionResult at htd
    cases hfind : comps.find?
        (fun c => c.component_type == ComponentType.transcription) with
    | none => rw [hfind] at htd; simp at htd
    | some tc =>
      rw [hfind] at htd
      simp only [Option.some_bind] at htd
      simp [aggregate, h1, h2, h3, h4, h5, hfind, htd]
  · intro hnone
    unfold transcriptionResult at hnone
    cases hfind : comps.find?
        (fun c => c.component_type == ComponentType.transcription) with
    | none => simp [aggregate, h1, h2, h3, h4, h5, hfind]
    | some tc =>
      rw [hfind] at hnone
      simp only [Option.some_bind] at hnone
      simp [aggregate, h1, h2, h3, h4, h5, hfind, hnone]

/-- C8 witness: both arms evaluated — on `stateC1` (payload present: six
wave-2 jobs carrying the transcript and flagged words) and on `compsC8m`
(transcription COMPLETED but payload missing: parent FAILED). -/
theorem claim_C8_witness :
    aggregate stateC1.parent stateC1.components =
      ({ stateC1.parent with
          result := some dispatchedMarker,
          status_message := some "Text analysis tasks dispatched." },
       (textComponents stateC1.components).map
         (fun c => wave2Job c (some "the quick brown fox") (some []) stateC1.parent))
    ∧ aggregate stateC1.parent compsC8m =
      ({ stateC1.parent with
          status := TaskStatus.failed,
          error_message := some "Transcription result not found." },
       []) :=
  ⟨(claim_C8_wave2_extraction stateC1.parent stateC1.components rfl (by decide)
      (by decide) (by decide) (by decide)).1 tPayload (by decide),
   (claim_C8_wave2_extraction stateC1.parent compsC8m rfl (by decide)
      (by decide) (by decide) (by decide)).2 (by decide)⟩

set_option maxRecDepth 4000 in
/-- C6: the rating computation is pure and equals the spec's formula — base
3.0, +1.0 when the grammar feedback is under 300 characters, +1.0 when the
content feedback is under 500 characters, rounded to one decimal and clamped
to [1.0, 5.0]; on the spec's test vector (250-character grammar feedback,
600-character content feedback) it yields exactly 4.0. -/
theorem claim_C6_rating :
    (∀ comps : List ComponentRow,
      calculate_rating comps
        = ratingSpec (grammarFeedbackOf comps) (contentFeedbackOf comps))
    ∧ calculate_rating ratingComps = 4 := by
  have hmain : ∀ comps : List ComponentRow,
      calculate_rating comps
        = ratingSpec (grammarFeedbackOf comps) (contentFeedbackOf comps) := by
    intro comps
    unfold calculate_rating ratingSpec grammarFeedbackOf contentFeedbackOf
    cases hg : comps.find?
        (fun c => c.component_type == ComponentType.grammar && c.result.isSome) <;>
    cases hc : comps.find?
        (fun c => c.component_type == ComponentType.content_comparison
          && c.result.isSome) <;>
      simp [hg, hc] <;> split_ifs <;> norm_num
  refine ⟨hmain, ?_⟩
  have hg : grammarFeedbackOf ratingComps = some gFeedback250 := rfl
  have hc : contentFeedbackOf ratingComps = some cFeedback600 := rfl
  have hlg : gFeedback250.length = 250 := rfl
  have hlc : cFeedback600.length = 600 := rfl
  rw [hmain ratingComps, hg, hc]
  simp only [ratingSpec, hlg, hlc]
  norm_num [pyRound1, round_eq]

theorem aggregate_not_processing (p : ParentRow) (comps : List ComponentRow)
    (h : p.status ≠ TaskStatus.processing) : aggregate p comps = (p, []) := by
  simp [aggregate, h]

theorem aggregate_progress_100 (p : ParentRow) (comps : List ComponentRow)
    (h : (aggregate p comps).1.progress = 100) : p.progress = 100 := by
  simp only [aggregate] at h
  repeat' split at h
  all_goals simp_all [totalCount, allComponentTypes]
  omega

theorem step_progress_sessions (s : SysState) (op : Op)
    (h : s.parent.progress = 100 → s.sessions ≠ []) :
    (step s op).parent.progress = 100 → (step s op).sessions ≠ [] := by
  cases op with
  | query =>
      intro h100
      simp only [step] at h100 ⊢
      exact h (aggregate_progress_100 _ _ h100)
  | report cid st msg res err now => intro h100; exact h h100
  | summarize ok now =>
      intro h100
      cases ok
      · simp only [step, summarizeStep, if_neg Bool.false_ne_true] at h100 ⊢
        exact h h100
      · simp [step, summarizeStep]

theorem run_progress_sessions (s : SysState) (ops : List Op)
    (h : s.parent.progress = 100 → s.sessions ≠ []) :
    (run s ops).parent.progress = 100 → (run s ops).sessions ≠ [] := by
  induction ops generalizing s with
  | nil => exact h
  | cons op ops ih => exact ih (step s op) (step_progress_sessions s op h)

/-- C7 fails as stated: the all-complete `getStatus` evaluation sets
progress to 95 — strictly above 90 — while the Final Summarizer has not run
(no outcome record exists yet, `sessions = []`). -/
theorem claim_C7_counterexample :
    (step stateC3 Op.query).parent.progress = 95
    ∧ 90 < (step stateC3 Op.query).parent.progress
    ∧ (step stateC3 Op.query).sessions = [] := by
  decide

/-- C7 amended: while the parent is PROCESSING with no failed component,
wave 2 dispatched and completedCount < totalCount, `getStatus` sets progress
to floor(completedCount / totalCount × 90) — which never exceeds 90 — and
the "c/8 components processed." message; progress reaches above 90 only via
the all-complete branch (95) and the summarizer (100), and on every run from
a fresh pipeline state a progress of 100 implies an outcome record has been
persisted. -/
theorem claim_C7_amended :
    (∀ s : SysState,
      s.parent.status = TaskStatus.processing →
      countStatus (buildStatuses s.components) TaskStatus.failed = 0 →
      pyTruthy s.parent.result = true →
      countStatus (buildStatuses s.components) TaskStatus.completed < totalCount →
      (step s Op.query).parent.progress
          = countStatus (buildStatuses s.components) TaskStatus.completed * 90 / totalCount
        ∧ (step s Op.query).parent.progress ≤ 90
        ∧ (step s Op.query).parent.status_message
            = some (toString (countStatus (buildStatuses s.components) TaskStatus.completed)
                ++ "/" ++ toString totalCount ++ " components processed."))
    ∧ (∀ (tid : String) (q a m : Option String) (path : String) (ops : List Op),
        (run (mkInitState tid q a m path) ops).parent.progress = 100 →
        (run (mkInitState tid q a m path) ops).sessions ≠ []) := by
  constructor
  · intro s h1 h2 h3 h4
    have hne : countStatus (buildStatuses s.components) TaskStatus.completed
        ≠ totalCount := Nat.ne_of_lt h4
    have hprog : (step s Op.query).parent.progress
        = countStatus (buildStatuses s.components) TaskStatus.completed * 90 / totalCount := by
      simp [step, aggregate, h1, h2, h3, hne]
    have hmsg : (step s Op.query).parent.status_message
        = some (toString (countStatus (buildStatuses s.components) TaskStatus.completed)
            ++ "/" ++ toString totalCount ++ " components processed.") := by
      simp [step, aggregate, h1, h2, h3, hne]
    refine ⟨hprog, ?_, hmsg⟩
    rw [hprog]
    have h8 : totalCount = 8 := rfl
    rw [h8] at h4 ⊢
    omega
  · intro tid q a m path ops
    exact run_progress_sessions (mkInitState tid q a m path) ops
      (by intro h100; simp [mkInitState] at h100)

/-- C7 witness: the amended statement evaluated on `stateC7` (two of eight
components complete, wave 2 dispatched — progress stays at 22 ≤ 90) and on a
run whose final progress is 100 (an outcome record exists). -/
theorem claim_C7_witness :
    (step stateC7 Op.query).parent.progress ≤ 90
    ∧ (run (mkInitState "t7" none none none "a.wav") [Op.summarize true 1]).sessions
        ≠ [] :=
  ⟨(claim_C7_amended.1 stateC7 rfl (by decide) (by decide) (by decide)).2.1,
   claim_C7_amended.2 "t7" none none none "a.wav" [Op.summarize true 1] (by decide)⟩

theorem step_not_processing (s : SysState) (op : Op)
    (h : s.parent.status ≠ TaskStatus.processing) :
    (step s op).parent.status ≠ TaskStatus.processing := by
  cases op with
  | query =>
      simpa [step, aggregate_not_processing s.parent s.components h] using h
  | report cid st msg res err now => exact h
  | summarize ok now => cases ok <;> simp [step, summarizeStep]

theorem run_not_processing (s : SysState) (ops : List Op)
    (h : s.parent.status ≠ TaskStatus.processing) :
    (run s ops).parent.status ≠ TaskStatus.processing := by
  induction ops generalizing s with
  | nil => exact h
  | cons op ops ih => exact ih (step s op) (step_not_processing s op h)

theorem step_failed_stable (s : SysState) (op : Op)
    (h : s.parent.status = TaskStatus.failed) (hop : op.isSummarize = false) :
    (step s op).parent.status = TaskStatus.failed := by
  cases op with
  | query =>
      have hnp : s.parent.status ≠ TaskStatus.processing := by rw [h]; decide
      simp [step, aggregate_not_processing s.parent s.components hnp, h]
  | report cid st msg res err now => exact h
  | summarize ok now => simp [Op.isSummarize] at hop

theorem run_failed_stable (s : SysState) (ops : List Op)
    (h : s.parent.status = TaskStatus.failed)
    (hops : ops.all (fun o => !o.isSummarize) = true) :
    (run s ops).parent.status = TaskStatus.failed := by
  induction ops generalizing s with
  | nil => exact h
  | cons op ops ih =>
      simp only [List.all_cons, Bool.and_eq_true, Bool.not_eq_true'] at hops
      exact ih (step s op) (step_failed_stable s op h hops.1) (by
        simp only [List.all_eq_true] at hops ⊢
        intro o ho
        simpa using hops.2 o ho)

/-- C9 fails as stated: from a fresh pipeline, all eight components report
COMPLETED, the first `getStatus` call dispatches wave 2 and the second
enqueues the final summary; an at-least-once redelivery then regresses the
transcription component and fails it, and the next `getStatus` marks the
parent FAILED — yet the queued summarizer execution afterwards overwrites
the FAILED parent with COMPLETED, so a later operation does change a FAILED
parent's status. -/
theorem claim_C9_counterexample :
    (run initC9 opsC9fail).parent.status = TaskStatus.failed
    ∧ 0 < (run initC9 opsC9fail).queue.countP (fun j => j.name == summaryTaskName)
    ∧ (step (run initC9 opsC9fail) (Op.summarize true 9)).parent.status
        = TaskStatus.completed := by
  decide

/-- C9 amended: once a parent is FAILED, no `getStatus` evaluation or
component report changes its status, and no sequence of operations ever
returns it to PROCESSING; only a Final Summarizer execution can still
overwrite FAILED (with COMPLETED on success). -/
theorem claim_C9_amended (s : SysState) (ops : List Op)
    (h : s.parent.status = TaskStatus.failed) :
    (run s ops).parent.status ≠ TaskStatus.processing
    ∧ (ops.all (fun o => !o.isSummarize) = true →
        (run s ops).parent.status = TaskStatus.failed) :=
  ⟨run_not_processing s ops (by rw [h]; decide),
   fun hops => run_failed_stable s ops h hops⟩

/-- C9 witness: the amended statement evaluated on a concrete FAILED state
and a query-only operation sequence. -/
theorem claim_C9_witness :
    (run stateC9fail [Op.query]).parent.status ≠ TaskStatus.processing
    ∧ (run stateC9fail [Op.query]).parent.status = TaskStatus.failed :=
  ⟨(claim_C9_amended stateC9fail [Op.query] rfl).1,
   (claim_C9_amended stateC9fail [Op.query] rfl).2 (by decide)⟩

theorem insertStatus_keys (d : List (ComponentType × TaskStatus))
    (k : ComponentType) (v : TaskStatus) :
    (insertStatus d k v).map Prod.fst
      = if d.any (fun p => p.1 == k) then d.map Prod.fst
        else d.map Prod.fst ++ [k] := by
  unfold insertStatus
  split_ifs with hany
  · rw [List.map_map]
    apply List.map_congr_left
    intro p hp
    by_cases hpk : p.1 = k <;> simp [hpk]
  · simp

theorem insertStatus_keys_nodup (d : List (ComponentType × TaskStatus))
    (k : ComponentType) (v : TaskStatus)
    (h : (d.map Prod.fst).Nodup) : ((insertStatus d k v).map Prod.fst).Nodup := by
  rw [insertStatus_keys]
  split_ifs with hany
  · exact h
  · refine List.Nodup.append h (List.nodup_singleton k) ?_
    intro x hx hk
    simp only [List.mem_singleton] at hk
    subst hk
    rcases List.mem_map.mp hx with ⟨p, hp, hpk⟩
    exact hany (List.any_eq_true.mpr ⟨p, hp, by simp [hpk]⟩)

theorem buildStatuses_keys_nodup (comps : List ComponentRow) :
    ((buildStatuses comps).map Prod.fst).Nodup := by
  have hgen : ∀ (l : List ComponentRow) (d : List (ComponentType × TaskStatus)),
      (d.map Prod.fst).Nodup →
      ((l.foldl (fun d c => insertStatus d c.component_type c.status) d).map
        Prod.fst).Nodup := by
    intro l
    induction l with
    | nil => intro d h; exact h
    | cons c l ih => intro d h; exact ih _ (insertStatus_keys_nodup d _ _ h)
  exact hgen comps [] (by simp)

theorem buildStatuses_length_le (comps : List ComponentRow) :
    (buildStatuses comps).length ≤ totalCount :=
  calc (buildStatuses comps).length
      = ((buildStatuses comps).map Prod.fst).length := (List.length_map _ _).symm
    _ ≤ Fintype.card ComponentType :=
        List.Nodup.length_le_card (buildStatuses_keys_nodup comps)
    _ = totalCount := by decide

theorem lookup_mem {k : ComponentType} {v : TaskStatus}
    {d : List (ComponentType × TaskStatus)} (h : d.lookup k = some v) :
    (k, v) ∈ d := by
  induction d with
  | nil => simp [List.lookup] at h
  | cons p d ih =>
      rw [List.lookup] at h
      cases hk : k == p.1 with
      | true =>
          rw [hk] at h
          simp only [] at h
          have hk' : k = p.1 := eq_of_beq hk
          have hv : p.2 = v := by injection h
          exact List.mem_cons.mpr (Or.inl (by rw [hk', ← hv]))
      | false =>
          rw [hk] at h
          exact List.mem_cons_of_mem _ (ih h)

theorem keys_nodup_unique {d : List (ComponentType × TaskStatus)}
    (h : (d.map Prod.fst).Nodup) {k : ComponentType} {v1 v2 : TaskStatus}
    (h1 : (k, v1) ∈ d) (h2 : (k, v2) ∈ d) : v1 = v2 := by
  induction d with
  | nil => simp at h1
  | cons p d ih =>
      rw [List.map_cons, List.nodup_cons] at h
      rcases List.mem_cons.mp h1 with e1 | m1 <;>
        rcases List.mem_cons.mp h2 with e2 | m2
      · rw [← e1] at e2; injection e2 with _ hv; exact hv.symm
      · exfalso
        exact h.1 (List.mem_map.mpr ⟨(k, v2), m2, by rw [← e1]⟩)
      · exfalso
        exact h.1 (List.mem_map.mpr ⟨(k, v1), m1, by rw [← e2]⟩)
      · exact ih h.2 m1 m2

theorem countP_lt_length_of_mem {α : Type} (p : α → Bool) {l : List α} {x : α}
    (hx : x ∈ l) (hpx : p x = false) : l.countP p < l.length := by
  induction l with
  | nil => simp at hx
  | cons a l ih =>
      rw [List.countP_cons, List.length_cons]
      rcases List.mem_cons.mp hx with rfl | hmem
      · simp only [hpx, Bool.false_eq_true, if_false]
        exact Nat.lt_succ_of_le (List.countP_le_length p)
      · have := ih hmem
        by_cases ha : p a <;> simp [ha] <;> omega

theorem wave2Job_name_ne (c : ComponentRow) (t : Option String)
    (f : Option (List (String × Int))) (p : ParentRow) :
    (wave2Job c t f p).name ≠ summaryTaskName := by
  rcases c with ⟨i, pid, ct, st, sm, res, em, ua, ca⟩
  cases ct <;> simp [wave2Job, summaryTaskName, ComponentType.value] <;> decide

theorem completed_lt_total {comps : List ComponentRow} {t : ComponentType}
    (h : (buildStatuses comps).lookup t = some TaskStatus.pending) :
    countStatus (buildStatuses comps) TaskStatus.completed < totalCount := by
  have hmem : (t, TaskStatus.pending) ∈ buildStatuses comps := lookup_mem h
  have hlt : (buildStatuses comps).countP (fun q => q.2 == TaskStatus.completed)
      < (buildStatuses comps).length :=
    countP_lt_length_of_mem _ hmem (by rfl)
  exact lt_of_lt_of_le hlt (buildStatuses_length_le comps)

theorem aggregate_no_summary {p : ParentRow} {comps : List ComponentRow}
    {t : ComponentType}
    (h : (buildStatuses comps).lookup t = some TaskStatus.pending) :
    ∀ j ∈ (aggregate p comps).2, j.name ≠ summaryTaskName := by
  intro j hj
  have hlt := completed_lt_total h
  simp only [aggregate] at hj
  split at hj
  · split at hj
    · simp at hj
    · split at hj
      · split at hj
        · split at hj
          · rcases List.mem_map.mp hj with ⟨c, hc, rfl⟩
            exact wave2Job_name_ne c _ _ p
          · simp at hj
        · simp at hj
      · split at hj
        · next hceq => exact absurd hceq (Nat.ne_of_lt hlt)
        · simp at hj
  · simp at hj

/-- C10: for the grammar, content and pronunciation tasks the analysis call
precedes both the PROCESSING write and the guarded region, so when it raises
the component row is left exactly as it was (a PENDING row stays PENDING
with no error recorded); consequently a component whose dict status is still
PENDING keeps the completed count below the total (the all-complete branch
cannot fire and no final-summary job is ever dispatched), and any positive
failed count is attributable to an entry of a different kind. -/
theorem claim_C10_unguarded_analysis (r : ComponentRow) (e : String)
    (t1 t2 : Nat) (p : ParentRow) (comps : List ComponentRow)
    (t : ComponentType) :
    evaluate_grammar_task (some r) (.error e) t1 t2 = some r
    ∧ evaluate_content_task (some r) (.error e) t1 t2 = some r
    ∧ evaluate_pronunciation_task (some r) (.error e) t1 t2 = some r
    ∧ ((buildStatuses comps).lookup t = some TaskStatus.pending →
        countStatus (buildStatuses comps) TaskStatus.completed < totalCount
        ∧ (∀ j ∈ (aggregate p comps).2, j.name ≠ summaryTaskName)
        ∧ (0 < countStatus (buildStatuses comps) TaskStatus.failed →
            ∃ q ∈ buildStatuses comps, q.1 ≠ t ∧ q.2 = TaskStatus.failed)) := by
  refine ⟨rfl, rfl, rfl, fun h =>
    ⟨completed_lt_total h, aggregate_no_summary h, fun hf => ?_⟩⟩
  unfold countStatus at hf
  rw [List.countP_pos_iff] at hf
  rcases hf with ⟨q, hq, hqf⟩
  have hqf' : q.2 = TaskStatus.failed := by simpa using hqf
  refine ⟨q, hq, ?_, hqf'⟩
  intro hqt
  have hmem : (t, TaskStatus.pending) ∈ buildStatuses comps := lookup_mem h
  have hq2 : (t, TaskStatus.failed) ∈ buildStatuses comps := by
    have hqq : (q.1, q.2) ∈ buildStatuses comps := by simpa using hq
    rw [hqt, hqf'] at hqq
    exact hqq
  have hcontra := keys_nodup_unique (buildStatuses_keys_nodup comps) hmem hq2
  simp at hcontra

/-- C10 witness: a raising grammar analysis leaves the PENDING grammar row
untouched, and on `compsC10` (pending grammar, failed audio-features) the
completed count stays below the total while the failure belongs to the
audio-features entry. -/
theorem claim_C10_witness :
    evaluate_grammar_task (some (mkComponent 6 .grammar "t1")) (.error "boom") 1 2
      = some (mkComponent 6 .grammar "t1")
    ∧ countStatus (buildStatuses compsC10) TaskStatus.completed < totalCount
    ∧ (∃ q ∈ buildStatuses compsC10,
        q.1 ≠ ComponentType.grammar ∧ q.2 = TaskStatus.failed) := by
  have h := claim_C10_unguarded_analysis (mkComponent 6 .grammar "t1") "boom"
      1 2 stateC1.parent compsC10 ComponentType.grammar
  have h4 := h.2.2.2 (by decide)
  exact ⟨h.1, h4.1, h4.2.2 (by decide)⟩
